import Mathlib

/-!
# Weather API and task tracker: a verification development

Shallow embedding of `src/weather_api/main.go` (the read-through caching
proxy) and of the ID management of `src/task_tracker/main.go`.

Conventions of the embedding

* Package-level variables (`redisClient`, `weatherAPIKey`, `cacheExpiration`)
  are the fields of `Globals`.
* The Redis server is external: a client is a pair of operations `Get`/`Set`
  over an arbitrary server state `σ`, threaded explicitly.
* The provider, the clock and `encoding/json` are external too: they are the
  fields of `Env`.
* A `float64` is its bit pattern. `jsonMarshal` is `json.Marshal` on a
  `WeatherResponse`, over the library encoder of `float64` values; the
  handlers call the field `Env.Marshal`, which the Paris scenario takes to be
  `jsonMarshal`.
* Every handler returns the response it wrote, the server state it left and
  the list of external calls it made, in program order. `log.Printf` lines
  are not part of that list.
* Go `int` is a 64-bit two's-complement integer: `wrapInt` after arithmetic.
-/

namespace WeatherAPI

/-! ## `net/url` escaping (Go standard library, as used by the client) -/

/-- Upper-case hexadecimal digit of a nibble, `"0123456789ABCDEF"[n]`. -/
def upperhex (n : Nat) : Char :=
  if n < 10 then Char.ofNat (48 + n) else Char.ofNat (55 + n)

/-- The escaping modes of `net/url` that matter here. -/
inductive Encoding where
  | encodePathSegment
  | encodeQueryComponent
  deriving DecidableEq, Repr

/-- Is the byte an ASCII letter or digit. -/
def isAlnum (c : Nat) : Bool :=
  (97 ≤ c && c ≤ 122) || (65 ≤ c && c ≤ 90) || (48 ≤ c && c ≤ 57)

/-- The reserved characters of RFC 3986 section 2.2 that `shouldEscape`
switches on: `$ & + , / : ; = ? @`. -/
def isReserved (c : Nat) : Bool :=
  c = 36 || c = 38 || c = 43 || c = 44 || c = 47 || c = 58 || c = 59 || c = 61
    || c = 63 || c = 64

/-- Go `url.shouldEscape(c, mode)` for the two modes above, on a byte. -/
def shouldEscape (c : Nat) (mode : Encoding) : Bool :=
  if isAlnum c then false
  else if c = 45 || c = 95 || c = 46 || c = 126 then false   -- - _ . ~
  else if isReserved c then
    match mode with
    | .encodePathSegment => c = 47 || c = 59 || c = 44 || c = 63   -- / ; , ?
    | .encodeQueryComponent => true
  else true

/-- One byte of the output loop of Go `url.escape`. -/
def escapeByte (mode : Encoding) (c : Nat) : List Char :=
  if c = 32 ∧ mode = .encodeQueryComponent then [Char.ofNat 43]   -- space becomes +
  else if shouldEscape c mode then [Char.ofNat 37, upperhex (c / 16), upperhex (c % 16)]
  else [Char.ofNat c]

/-- The bytes of a Go string (UTF-8). -/
def bytesOf (s : String) : List Nat :=
  (s.data.flatMap String.utf8EncodeChar).map UInt8.toNat

/-- Go `url.escape(s, mode)`. -/
def escape (s : String) (mode : Encoding) : String :=
  String.mk ((bytesOf s).flatMap (escapeByte mode))

/-- Go `url.QueryEscape`. -/
def QueryEscape (s : String) : String := escape s .encodeQueryComponent

/-- Go `url.PathEscape`: the escaping of a single path segment. It is not
called by the program; it is what "escaped as a path segment" means. -/
def PathEscape (s : String) : String := escape s .encodePathSegment

/-- Value of a hexadecimal digit, Go `unhex`; `none` when it is not one. -/
def unhex (c : Char) : Option Nat :=
  if 48 ≤ c.toNat ∧ c.toNat ≤ 57 then some (c.toNat - 48)
  else if 97 ≤ c.toNat ∧ c.toNat ≤ 102 then some (c.toNat - 97 + 10)
  else if 65 ≤ c.toNat ∧ c.toNat ≤ 70 then some (c.toNat - 65 + 10)
  else none

/-- Go `url.PathUnescape` on the characters of an escaped segment, yielding
the bytes of the result: `%XX` becomes the byte, every other character,
`+` included, stands for itself; a malformed `%` is an error. Not called
by the program; it is what "path-unescaping" means. -/
def PathUnescape : List Char → Option (List Nat)
  | [] => some []
  | c :: rest =>
    if c = Char.ofNat 37 then
      match rest with
      | h :: l :: rest2 =>
        match unhex h, unhex l, PathUnescape rest2 with
        | some a, some b, some out => some ((a * 16 + b) :: out)
        | _, _, _ => none
      | _ => none
    else
      match PathUnescape rest with
      | some out => some ((bytesOf (String.mk [c])) ++ out)
      | none => none

/-! ## Data model (`main.go` lines 19-43) -/

/-- A Go `float64`, kept as its IEEE 754 binary64 bit pattern: one sign bit,
eleven exponent bits, fifty-two fraction bits. The program only copies such
values. -/
structure float64 where
  bits : Nat
  deriving DecidableEq, Repr

/-- Does the bit pattern denote the finite number `n / d`: with significand
`sig` and biased exponent `ex`, the value is `sig * 2 ^ (ex - 1075)`, negated
when the sign bit is set; exponent field 2047 is an infinity or a NaN. -/
def float64.denotes (x : float64) (n : Int) (d : Nat) : Bool :=
  let sign : Nat := x.bits / 2 ^ 63 % 2
  let e : Nat := x.bits / 2 ^ 52 % 2048
  let m : Nat := x.bits % 2 ^ 52
  let sig : Nat := if e = 0 then m else 2 ^ 52 + m
  let ex : Nat := if e = 0 then 1 else e
  decide (e ≠ 2047 ∧ d ≠ 0 ∧
    (if sign = 1 then -(sig : Int) else (sig : Int)) * 2 ^ (ex - 1075) * (d : Int)
      = n * 2 ^ (1075 - ex))

/-- The `float64` 18.5, bit pattern `0x4032800000000000`. -/
def float18_5 : float64 := ⟨0x4032800000000000⟩

/-- The `float64` 60, bit pattern `0x404E000000000000`. -/
def float60 : float64 := ⟨0x404E000000000000⟩

/-- The `float64` 10, bit pattern `0x4024000000000000`. -/
def float10 : float64 := ⟨0x4024000000000000⟩

/-- The canonical weather record served to clients. -/
structure WeatherResponse where
  Location : String
  Temperature : float64
  Conditions : String
  Humidity : float64
  WindSpeed : float64
  Timestamp : String
  deriving DecidableEq, Repr

/-- The anonymous struct `currentConditions` of the provider payload. -/
structure CurrentConditions where
  Temp : float64
  Conditions : String
  Humidity : float64
  WindSpeed : float64
  deriving DecidableEq, Repr

/-- The part of the provider payload that the service decodes. -/
structure VisualCrossingResponse where
  ResolvedAddress : String
  CurrentConditions : CurrentConditions

/-- A `*redis.Client`, as the program uses it, over a server state `σ`.
`Get` yields the stored string or an error (`redis.Nil` on a missing key, a
transport error otherwise); `Set` yields its error status and the server
state it leaves behind. -/
structure RedisClient (σ : Type) where
  Ping : σ → Except String Unit
  Get : σ → String → Except String String
  Set : σ → String → String → Int → Except String Unit × σ

/-- The package-level variables. `redisClient = none` is the nil client. -/
structure Globals (σ : Type) where
  redisClient : Option (RedisClient σ)
  weatherAPIKey : String
  cacheExpiration : Int

/-- Outcome of `http.Get`: a transport error, or a response. -/
inductive HttpResult where
  | error (err : String)
  | response (StatusCode : Nat) (Body : String)

/-- What a request sees of the outside world: the provider behind
`http.Get`, `encoding/json` on the two record types, and the clock reading
`time.Now().Format(time.RFC3339)`. -/
structure Env where
  httpGet : String → HttpResult
  Decode : String → Except String VisualCrossingResponse
  Marshal : WeatherResponse → Except String String
  now : String

/-- External calls, recorded in program order. -/
inductive Event where
  | redisGet (key : String)
  | redisSet (key value : String) (expiration : Int)
  | httpGet (url : String)
  deriving DecidableEq, Repr

/-! ## `net/http` request and response writer -/

/-- Go `url.Values.Get` on the parsed query, kept as the list of its
key-value pairs in order of appearance: the first value of the key, or the
empty string. -/
def Values.Get (q : List (String × String)) (key : String) : String :=
  match q.find? (fun kv => kv.1 == key) with
  | some kv => kv.2
  | none => ""

/-- The parts of `*http.Request` the handlers read. -/
structure Request where
  Method : String
  Query : List (String × String)

/-- An `http.ResponseWriter`: the header map, the status line once written,
and the body written so far. -/
structure ResponseWriter where
  Header : List (String × String)
  wroteHeader : Option Nat
  Body : String
  deriving DecidableEq, Repr

/-- A fresh response writer, as handed to a handler. -/
def ResponseWriter.new : ResponseWriter :=
  { Header := [], wroteHeader := none, Body := "" }

/-- Go `Header.Set`: replaces the values of the key. -/
def ResponseWriter.HeaderSet (w : ResponseWriter) (key value : String) : ResponseWriter :=
  { w with Header := (key, value) :: w.Header.filter (fun kv => kv.1 != key) }

/-- Go `Header.Get`. -/
def ResponseWriter.HeaderGet (w : ResponseWriter) (key : String) : String :=
  Values.Get w.Header key

/-- Go `WriteHeader`: the first status written stays. -/
def ResponseWriter.WriteHeader (w : ResponseWriter) (code : Nat) : ResponseWriter :=
  match w.wroteHeader with
  | some _ => w
  | none => { w with wroteHeader := some code }

/-- Go `Write`: writes status 200 first when no status was written. -/
def ResponseWriter.Write (w : ResponseWriter) (b : String) : ResponseWriter :=
  let w1 := w.WriteHeader 200
  { w1 with Body := w1.Body ++ b }

/-- The status the client receives. -/
def ResponseWriter.StatusCode (w : ResponseWriter) : Nat :=
  w.wroteHeader.getD 200

/-- Go `http.Error`. -/
def Error (w : ResponseWriter) (error : String) (code : Nat) : ResponseWriter :=
  let w1 := { w with Header := w.Header.filter (fun kv => kv.1 != "Content-Length") }
  let w2 := w1.HeaderSet "Content-Type" "text/plain; charset=utf-8"
  let w3 := w2.HeaderSet "X-Content-Type-Options" "nosniff"
  (w3.WriteHeader code).Write (error ++ "\n")

/-! ## `encoding/json` on a `WeatherResponse` -/

/-- Lower-case hexadecimal digit of a nibble, `"0123456789abcdef"[n]`. -/
def lowerhex (n : Nat) : Char :=
  if n < 10 then Char.ofNat (48 + n) else Char.ofNat (87 + n)

/-- The ASCII bytes of `htmlSafeSet`: the printable ones and DEL, without
the double quote, the backslash and `<`, `>`, `&`. -/
def htmlSafe (n : Nat) : Bool :=
  32 ≤ n && n < 128 && n != 34 && n != 92 && n != 60 && n != 62 && n != 38

/-- One character of the loop of `appendString` with HTML escaping on, as
`json.Marshal` calls it (Go 1.22 and later, where backspace and form feed
have short escapes). -/
def quoteChar (c : Char) : List Char :=
  if c.toNat < 128 then
    if htmlSafe c.toNat then [c]
    else if c.toNat = 92 ∨ c.toNat = 34 then [Char.ofNat 92, c]
    else if c.toNat = 8 then [Char.ofNat 92, Char.ofNat 98]
    else if c.toNat = 12 then [Char.ofNat 92, Char.ofNat 102]
    else if c.toNat = 10 then [Char.ofNat 92, Char.ofNat 110]
    else if c.toNat = 13 then [Char.ofNat 92, Char.ofNat 114]
    else if c.toNat = 9 then [Char.ofNat 92, Char.ofNat 116]
    else [Char.ofNat 92, Char.ofNat 117, Char.ofNat 48, Char.ofNat 48,
          lowerhex (c.toNat / 16), lowerhex (c.toNat % 16)]
  else if c.toNat = 8232 ∨ c.toNat = 8233 then
    [Char.ofNat 92, Char.ofNat 117, Char.ofNat 50, Char.ofNat 48, Char.ofNat 50,
      lowerhex (c.toNat % 16)]
  else [c]

/-- The JSON text of a Go string: `appendString` between double quotes. -/
def quote (s : String) : String :=
  String.mk ([Char.ofNat 34] ++ s.data.flatMap quoteChar ++ [Char.ofNat 34])

/-- Go `json.Marshal` of a `WeatherResponse` (lines 26-33): one object whose
keys are the `json` tags in field order, without white space. Strings are
written by `quote`; the encoder of `float64` values is the parameter
`formatFloat`, which fails on an infinity or a NaN, and its failure is the
failure of `Marshal`. -/
def jsonMarshal (formatFloat : float64 → Except String String) (r : WeatherResponse) :
    Except String String :=
  match formatFloat r.Temperature with
  | .error e => .error e
  | .ok temperature =>
    match formatFloat r.Humidity with
    | .error e => .error e
    | .ok humidity =>
      match formatFloat r.WindSpeed with
      | .error e => .error e
      | .ok windSpeed =>
        .ok ("\x7b\"location\":" ++ quote r.Location
          ++ ",\"temperature\":" ++ temperature
          ++ ",\"conditions\":" ++ quote r.Conditions
          ++ ",\"humidity\":" ++ humidity
          ++ ",\"windSpeed\":" ++ windSpeed
          ++ ",\"timestamp\":" ++ quote r.Timestamp ++ "\x7d")

/-! ## The program -/

/-- The end of `init` (lines 45-71): the API key is required, and a failed
ping leaves the service without a client. `none` is `log.Fatal`. -/
def init {σ : Type} (weatherAPIKey : String) (cacheExpiration : Int)
    (client : RedisClient σ) (s : σ) : Option (Globals σ) :=
  if weatherAPIKey = "" then none
  else
    some { redisClient := (match client.Ping s with
                           | .error _ => none
                           | .ok _ => some client)
           weatherAPIKey := weatherAPIKey
           cacheExpiration := cacheExpiration }

/-- Lines 92-95. `json.NewEncoder(w).Encode` of the one-entry map writes the
JSON object followed by a newline. The handler reads nothing of the request,
the globals or the outside world. -/
def healthHandler {σ : Type} (_g : Globals σ) (_env : Env) (s : σ) (_r : Request) :
    ResponseWriter × σ × List Event :=
  let w := ResponseWriter.new
  let w1 := w.HeaderSet "Content-Type" "application/json"
  (w1.Write "\x7b\"status\":\"ok\"\x7d\n", s, [])

/-- The local `apiURL` of `fetchWeatherFromAPI` (lines 143-145). -/
def apiURL (weatherAPIKey city : String) : String :=
  let baseURL := "https://weather.visualcrossing.com/VisualCrossingWebServices/rest/services/timeline"
  baseURL ++ "/" ++ QueryEscape city ++ "?key=" ++ weatherAPIKey
    ++ "&unitGroup=metric&include=current"

/-- Lines 142-171. -/
def fetchWeatherFromAPI (weatherAPIKey : String) (env : Env) (city : String) :
    Except String WeatherResponse × List Event :=
  let url := apiURL weatherAPIKey city
  match env.httpGet url with
  | .error err => (.error ("failed to fetch weather data: " ++ err), [.httpGet url])
  | .response StatusCode body =>
    if StatusCode ≠ 200 then
      (.error ("API returned status " ++ toString StatusCode ++ ": " ++ body), [.httpGet url])
    else
      match env.Decode body with
      | .error err => (.error ("failed to decode API response: " ++ err), [.httpGet url])
      | .ok vcResponse =>
        (.ok { Location := vcResponse.ResolvedAddress
               Temperature := vcResponse.CurrentConditions.Temp
               Conditions := vcResponse.CurrentConditions.Conditions
               Humidity := vcResponse.CurrentConditions.Humidity
               WindSpeed := vcResponse.CurrentConditions.WindSpeed
               Timestamp := env.now }, [.httpGet url])

/-- Lines 119-139 of `weatherHandler`: the path taken when no cached value
was written. `tr` is the list of calls made so far. -/
def weatherHandlerMiss {σ : Type} (g : Globals σ) (env : Env) (s : σ) (city : String)
    (w : ResponseWriter) (tr : List Event) : ResponseWriter × σ × List Event :=
  match fetchWeatherFromAPI g.weatherAPIKey env city with
  | (.error err, tf) =>
    (Error w ("Error fetching weather data: " ++ err) 500, s, tr ++ tf)
  | (.ok weatherData, tf) =>
    match env.Marshal weatherData with
    | .error _ => (Error w "Error encoding response" 500, s, tr ++ tf)
    | .ok responseJSON =>
      match g.redisClient with
      | some c =>
        let r := c.Set s city responseJSON g.cacheExpiration
        (w.Write responseJSON, r.2,
          tr ++ tf ++ [.redisSet city responseJSON g.cacheExpiration])
      | none => (w.Write responseJSON, s, tr ++ tf)

/-- Lines 97-140. -/
def weatherHandler {σ : Type} (g : Globals σ) (env : Env) (s : σ) (r : Request) :
    ResponseWriter × σ × List Event :=
  let w := ResponseWriter.new
  if r.Method ≠ "GET" then (Error w "Method not allowed" 405, s, [])
  else
    let city := Values.Get r.Query "city"
    if city = "" then (Error w "City parameter is required" 400, s, [])
    else
      let w1 := w.HeaderSet "Content-Type" "application/json"
      match g.redisClient with
      | some c =>
        match c.Get s city with
        | .ok cachedData => (w1.Write cachedData, s, [.redisGet city])
        | .error _ => weatherHandlerMiss g env s city w1 [.redisGet city]
      | none => weatherHandlerMiss g env s city w1 []

/-! ## Vocabulary of the statements -/

/-- Is the call a provider request. -/
def Event.isHttpGet : Event → Bool
  | .httpGet _ => true
  | _ => false

/-- Is the call a cache read. -/
def Event.isRedisGet : Event → Bool
  | .redisGet _ => true
  | _ => false

/-- Is the call a cache write. -/
def Event.isRedisSet : Event → Bool
  | .redisSet _ _ _ => true
  | _ => false

/-! ## Concrete collaborators, for evaluating the program -/

/-- A Redis server that is a plain key-value map: reachable, no expiry. -/
def mapClient : RedisClient (List (String × String)) where
  Ping := fun _ => .ok ()
  Get := fun s key =>
    match s.find? (fun kv => kv.1 == key) with
    | some kv => .ok kv.2
    | none => .error "redis: nil"
  Set := fun s key value _ => (.ok (), (key, value) :: s.filter (fun kv => kv.1 != key))

/-- A Redis server that cannot be reached. -/
def downClient : RedisClient (List (String × String)) where
  Ping := fun _ => .error "dial tcp: connection refused"
  Get := fun _ _ => .error "dial tcp: connection refused"
  Set := fun s _ _ _ => (.error "dial tcp: connection refused", s)

/-- The provider payload of the Paris scenario, decoded. -/
def parisVC : VisualCrossingResponse :=
  { ResolvedAddress := "Paris, France"
    CurrentConditions :=
      { Temp := float18_5, Conditions := "Clear", Humidity := float60, WindSpeed := float10 } }

/-- The record the Paris scenario must yield at clock reading `ts`. -/
def parisRecord (ts : String) : WeatherResponse :=
  { Location := "Paris, France", Temperature := float18_5, Conditions := "Clear",
    Humidity := float60, WindSpeed := float10, Timestamp := ts }

/-- A provider that answers every request with the Paris payload, and a
serialiser that is injective enough to tell records apart by location and
timestamp. -/
def parisEnv : Env where
  httpGet := fun _ => .response 200 "paris-payload"
  Decode := fun _ => .ok parisVC
  Marshal := fun r => .ok (r.Location ++ "@" ++ r.Timestamp)
  now := "2024-05-01T12:00:00Z"

/-- A `float64` encoder that knows the three numbers of the Paris scenario
and writes them as Go does: `18.5`, `60`, `10`. -/
def scenarioFormat (x : float64) : Except String String :=
  if x = float18_5 then .ok "18.5"
  else if x = float60 then .ok "60"
  else if x = float10 then .ok "10"
  else .error "json: unsupported value"

/-- The provider of `parisEnv` with `json.Marshal` as the serialiser. -/
def jsonEnv : Env where
  httpGet := fun _ => .response 200 "paris-payload"
  Decode := fun _ => .ok parisVC
  Marshal := jsonMarshal scenarioFormat
  now := "2024-05-01T12:00:00Z"

/-- The JSON text of the Paris record at the clock reading of `jsonEnv`. -/
def parisJSON : String :=
  "\x7b\"location\":\"Paris, France\",\"temperature\":18.5,\"conditions\":\"Clear\",\"humidity\":60,\"windSpeed\":10,\"timestamp\":\"2024-05-01T12:00:00Z\"\x7d"

/-- A provider that answers every request with status 503. -/
def failingEnv : Env where
  httpGet := fun _ => .response 503 "unavailable"
  Decode := fun _ => .ok parisVC
  Marshal := fun r => .ok (r.Location ++ "@" ++ r.Timestamp)
  now := "2024-05-01T12:00:00Z"

/-- The request `GET /weather?city=Paris`. -/
def parisRequest : Request := { Method := "GET", Query := [("city", "Paris")] }

/-- The request `GET /weather?location=Paris`. -/
def locationRequest : Request := { Method := "GET", Query := [("location", "Paris")] }

/-- What `parisEnv` serialises the Paris record to. -/
def parisBytes : String := "Paris, France@2024-05-01T12:00:00Z"

/-- The provider URL for the city `Paris` under the key `KEY`. -/
def parisURL : String :=
  "https://weather.visualcrossing.com/VisualCrossingWebServices/rest/services/timeline/Paris?key=KEY&unitGroup=metric&include=current"

/-- Globals with the map-backed cache enabled. -/
def cachedGlobals : Globals (List (String × String)) :=
  { redisClient := some mapClient, weatherAPIKey := "KEY", cacheExpiration := 43200000000000 }

/-- Globals whose cache client cannot reach its server. -/
def brokenGlobals : Globals (List (String × String)) :=
  { redisClient := some downClient, weatherAPIKey := "KEY", cacheExpiration := 43200000000000 }

/-- Globals after a failed startup ping. -/
def uncachedGlobals : Globals (List (String × String)) :=
  { redisClient := none, weatherAPIKey := "KEY", cacheExpiration := 43200000000000 }

end WeatherAPI

namespace TaskTracker

/-! ## Task tracker (`src/task_tracker/main.go`)

The commands are embedded from the task list that `loadTasks` returned to the
task list handed to `saveTasks`; `os.Exit(1)` after the "not found" message
is the `error` result. Clock readings of `time.Now()` are parameters. -/

/-- Largest Go `int` (64-bit). -/
def maxInt : Int := 9223372036854775807

/-- Smallest Go `int` (64-bit). -/
def minInt : Int := -9223372036854775808

/-- Two's-complement wrap-around of 64-bit `int` arithmetic. -/
def wrapInt (x : Int) : Int := (x + 9223372036854775808) % 18446744073709551616 - 9223372036854775808

/-- Lines 11-17; a `time.Time` is kept as an instant number. -/
structure Task where
  ID : Int
  Description : String
  Status : String
  CreatedAt : Nat
  UpdatedAt : Nat
  deriving DecidableEq, Repr

/-- Lines 142-150. -/
def getNextID (tasks : List Task) : Int :=
  let maxID := tasks.foldl (fun maxID task => if task.ID > maxID then task.ID else maxID) 0
  wrapInt (maxID + 1)

/-- Lines 152-176: the list saved by `add`. -/
def addTask (tasks : List Task) (description : String) (now1 now2 : Nat) : List Task :=
  let newTask : Task :=
    { ID := getNextID tasks
      Description := description
      Status := "todo"
      CreatedAt := now1
      UpdatedAt := now2 }
  tasks ++ [newTask]

/-- The loop of lines 185-193: rewrites the first task with the ID and
stops; the flag is `found`. -/
def updateLoop (id : Int) (description : String) (now : Nat) : List Task → Bool × List Task
  | [] => (false, [])
  | task :: rest =>
    if task.ID = id then
      (true, { task with Description := description, UpdatedAt := now } :: rest)
    else
      ((updateLoop id description now rest).1, task :: (updateLoop id description now rest).2)

/-- Lines 178-207: the list saved by `update`, or the exit. -/
def updateTask (tasks : List Task) (id : Int) (description : String) (now : Nat) :
    Except String (List Task) :=
  let r := updateLoop id description now tasks
  if !r.1 then .error ("Error: Task with ID " ++ toString id ++ " not found")
  else .ok r.2

/-- The loop of lines 216-224: keeps the tasks with another ID; the flag is
`found`. -/
def deleteLoop (id : Int) : List Task → Bool × List Task
  | [] => (false, [])
  | task :: rest =>
    if task.ID = id then (true, (deleteLoop id rest).2)
    else ((deleteLoop id rest).1, task :: (deleteLoop id rest).2)

/-- Lines 209-238: the list saved by `delete`, or the exit. -/
def deleteTask (tasks : List Task) (id : Int) : Except String (List Task) :=
  let r := deleteLoop id tasks
  if !r.1 then .error ("Error: Task with ID " ++ toString id ++ " not found")
  else .ok r.2

/-- The loop of lines 247-255. -/
def markLoop (id : Int) (status : String) (now : Nat) : List Task → Bool × List Task
  | [] => (false, [])
  | task :: rest =>
    if task.ID = id then
      (true, { task with Status := status, UpdatedAt := now } :: rest)
    else
      ((markLoop id status now rest).1, task :: (markLoop id status now rest).2)

/-- Lines 240-269: the list saved by `mark-in-progress` and `mark-done`, or
the exit. -/
def markTask (tasks : List Task) (id : Int) (status : String) (now : Nat) :
    Except String (List Task) :=
  let r := markLoop id status now tasks
  if !r.1 then .error ("Error: Task with ID " ++ toString id ++ " not found")
  else .ok r.2

/-- The list of IDs of a task list. -/
def ids (tasks : List Task) : List Int := tasks.map (fun t => t.ID)

/-- A task with the given ID, for evaluating the commands. -/
def taskWithID (id : Int) : Task :=
  { ID := id, Description := "t", Status := "todo", CreatedAt := 0, UpdatedAt := 0 }

end TaskTracker

namespace WeatherAPI

/-! ## Helper lemmas on the handler -/

theorem fetch_trace (key : String) (env : Env) (city : String) :
    (fetchWeatherFromAPI key env city).2 = [.httpGet (apiURL key city)] := by
  unfold fetchWeatherFromAPI
  cases h : env.httpGet (apiURL key city) with
  | error err => simp [h]
  | response code body =>
    by_cases hc : code = 200
    · cases hd : env.Decode body <;> simp [h, hc, hd]
    · simp [h, hc]

theorem fetch_ok (key : String) (env : Env) (city body : String)
    (vc : VisualCrossingResponse)
    (hget : env.httpGet (apiURL key city) = .response 200 body)
    (hdec : env.Decode body = .ok vc) :
    (fetchWeatherFromAPI key env city).1 =
      .ok { Location := vc.ResolvedAddress
            Temperature := vc.CurrentConditions.Temp
            Conditions := vc.CurrentConditions.Conditions
            Humidity := vc.CurrentConditions.Humidity
            WindSpeed := vc.CurrentConditions.WindSpeed
            Timestamp := env.now } := by
  simp [fetchWeatherFromAPI, hget, hdec]

theorem fetch_pair (key : String) (env : Env) (city : String) :
    fetchWeatherFromAPI key env city =
      ((fetchWeatherFromAPI key env city).1, [.httpGet (apiURL key city)]) := by
  rw [← fetch_trace]

theorem handler_valid {σ : Type} (g : Globals σ) (env : Env) (s : σ) (r : Request)
    (hm : r.Method = "GET") (hk : Values.Get r.Query "city" ≠ "") :
    weatherHandler g env s r =
      match g.redisClient with
      | some c =>
        match c.Get s (Values.Get r.Query "city") with
        | .ok cachedData =>
          ((ResponseWriter.new.HeaderSet "Content-Type" "application/json").Write cachedData,
            s, [.redisGet (Values.Get r.Query "city")])
        | .error _ =>
          weatherHandlerMiss g env s (Values.Get r.Query "city")
            (ResponseWriter.new.HeaderSet "Content-Type" "application/json")
            [.redisGet (Values.Get r.Query "city")]
      | none =>
        weatherHandlerMiss g env s (Values.Get r.Query "city")
          (ResponseWriter.new.HeaderSet "Content-Type" "application/json") [] := by
  simp [weatherHandler, hm, hk]

theorem miss_fetch_error {σ : Type} (g : Globals σ) (env : Env) (s : σ) (city e : String)
    (w : ResponseWriter) (tr : List Event)
    (hf : (fetchWeatherFromAPI g.weatherAPIKey env city).1 = .error e) :
    weatherHandlerMiss g env s city w tr =
      (Error w ("Error fetching weather data: " ++ e) 500, s,
        tr ++ [.httpGet (apiURL g.weatherAPIKey city)]) := by
  unfold weatherHandlerMiss
  rw [fetch_pair, hf]

theorem miss_fetch_ok {σ : Type} (g : Globals σ) (env : Env) (s : σ) (city b : String)
    (rec : WeatherResponse) (w : ResponseWriter) (tr : List Event)
    (hf : (fetchWeatherFromAPI g.weatherAPIKey env city).1 = .ok rec)
    (hmar : env.Marshal rec = .ok b) :
    weatherHandlerMiss g env s city w tr =
      match g.redisClient with
      | some c =>
        (w.Write b, (c.Set s city b g.cacheExpiration).2,
          tr ++ [.httpGet (apiURL g.weatherAPIKey city)]
            ++ [.redisSet city b g.cacheExpiration])
      | none => (w.Write b, s, tr ++ [.httpGet (apiURL g.weatherAPIKey city)]) := by
  unfold weatherHandlerMiss
  rw [fetch_pair, hf]
  simp only [hmar]

theorem miss_fetch_ok_marshal_error {σ : Type} (g : Globals σ) (env : Env) (s : σ)
    (city e : String) (rec : WeatherResponse) (w : ResponseWriter) (tr : List Event)
    (hf : (fetchWeatherFromAPI g.weatherAPIKey env city).1 = .ok rec)
    (hmar : env.Marshal rec = .error e) :
    weatherHandlerMiss g env s city w tr =
      (Error w "Error encoding response" 500, s,
        tr ++ [.httpGet (apiURL g.weatherAPIKey city)]) := by
  unfold weatherHandlerMiss
  rw [fetch_pair, hf]
  simp only [hmar]

theorem fresh_json_write (b : String) :
    ((ResponseWriter.new.HeaderSet "Content-Type" "application/json").Write b).StatusCode = 200
    ∧ ((ResponseWriter.new.HeaderSet "Content-Type" "application/json").Write b).Body = b
    ∧ ((ResponseWriter.new.HeaderSet "Content-Type" "application/json").Write b).HeaderGet
        "Content-Type" = "application/json" := by
  refine ⟨rfl, ?_, ?_⟩
  · simp [ResponseWriter.Write, ResponseWriter.WriteHeader, ResponseWriter.HeaderSet,
      ResponseWriter.new]
  · simp [ResponseWriter.Write, ResponseWriter.WriteHeader, ResponseWriter.HeaderSet,
      ResponseWriter.new, ResponseWriter.HeaderGet, Values.Get]

theorem error_status (w : ResponseWriter) (msg : String) (code : Nat)
    (hw : w.wroteHeader = none) : (Error w msg code).StatusCode = code := by
  simp [Error, ResponseWriter.Write, ResponseWriter.WriteHeader, ResponseWriter.HeaderSet,
    ResponseWriter.StatusCode, hw]

theorem valid_miss_trace {σ : Type} (g : Globals σ) (c : RedisClient σ) (env : Env) (s : σ)
    (r : Request) (k : String)
    (hc : g.redisClient = some c)
    (hm : r.Method = "GET") (hq : Values.Get r.Query "city" = k) (hk : k ≠ "")
    (hmiss : ∃ e, c.Get s k = .error e) :
    (weatherHandler g env s r).2.2 = [.redisGet k, .httpGet (apiURL g.weatherAPIKey k)]
    ∨ ∃ b, (weatherHandler g env s r).2.2 =
        [.redisGet k, .httpGet (apiURL g.weatherAPIKey k), .redisSet k b g.cacheExpiration] := by
  obtain ⟨e, he⟩ := hmiss
  subst hq
  rw [handler_valid g env s r hm hk]
  simp only [hc, he]
  cases hf : (fetchWeatherFromAPI g.weatherAPIKey env (Values.Get r.Query "city")).1 with
  | error e1 => left; rw [miss_fetch_error g env s _ e1 _ _ hf]; rfl
  | ok rec =>
    cases hmar : env.Marshal rec with
    | error e2 => left; rw [miss_fetch_ok_marshal_error g env s _ e2 rec _ _ hf hmar]; rfl
    | ok b => right; refine ⟨b, ?_⟩; rw [miss_fetch_ok g env s _ b rec _ _ hf hmar]; simp [hc]

theorem flatMap_quoteChar_plain (l : List Char) (h : ∀ c ∈ l, quoteChar c = [c]) :
    l.flatMap quoteChar = l := by
  induction l with
  | nil => rfl
  | cons a rest ih =>
    rw [List.flatMap_cons, h a (List.mem_cons_self _ _),
      ih (fun c hc => h c (List.mem_cons_of_mem _ hc))]
    rfl

theorem quote_plain (s : String) (h : ∀ c ∈ s.data, quoteChar c = [c]) :
    quote s = "\"" ++ s ++ "\"" := by
  unfold quote
  rw [flatMap_quoteChar_plain s.data h]
  apply String.ext
  simp only [String.data_append]

theorem paris_marshal (formatFloat : float64 → Except String String) (ts : String)
    (h185 : formatFloat float18_5 = .ok "18.5")
    (h60 : formatFloat float60 = .ok "60")
    (h10 : formatFloat float10 = .ok "10") :
    jsonMarshal formatFloat
        { Location := "Paris, France", Temperature := float18_5, Conditions := "Clear",
          Humidity := float60, WindSpeed := float10, Timestamp := ts }
      = .ok ("\x7b\"location\":\"Paris, France\",\"temperature\":18.5,\"conditions\":\"Clear\",\"humidity\":60,\"windSpeed\":10,\"timestamp\":"
          ++ quote ts ++ "\x7d") := by
  have hq1 : quote "Paris, France" = "\"Paris, France\"" := by decide
  have hq2 : quote "Clear" = "\"Clear\"" := by decide
  simp only [jsonMarshal, h185, h60, h10, hq1, hq2]
  congr 1

/-! ## The claims -/

/-- C1: with the cache enabled, if a first GET request for a non-empty key
`k` misses, fetches a record from upstream, serialises it to `b` and the
store then holds `b` under `k`, the first response is 200 with body `b`, and a
following GET request for `k` on the store as the first one left it is a
cache hit: status 200, body exactly `b`, one cache read and no upstream
request, whatever the upstream would have answered. -/
theorem cache_hit_returns_stored_bytes {σ : Type} (g : Globals σ) (c : RedisClient σ)
    (env1 env2 : Env) (s : σ) (r1 r2 : Request) (k b : String) (rec : WeatherResponse)
    (hc : g.redisClient = some c)
    (hm1 : r1.Method = "GET") (hq1 : Values.Get r1.Query "city" = k)
    (hm2 : r2.Method = "GET") (hq2 : Values.Get r2.Query "city" = k)
    (hk : k ≠ "")
    (hmiss : ∃ e, c.Get s k = .error e)
    (hfetch : (fetchWeatherFromAPI g.weatherAPIKey env1 k).1 = .ok rec)
    (hmar : env1.Marshal rec = .ok b)
    (hstored : c.Get (c.Set s k b g.cacheExpiration).2 k = .ok b) :
    (weatherHandler g env1 s r1).1.StatusCode = 200
    ∧ (weatherHandler g env1 s r1).1.Body = b
    ∧ (weatherHandler g env1 s r1).2.1 = (c.Set s k b g.cacheExpiration).2
    ∧ (weatherHandler g env1 s r1).2.2 =
        [.redisGet k, .httpGet (apiURL g.weatherAPIKey k), .redisSet k b g.cacheExpiration]
    ∧ (weatherHandler g env2 (weatherHandler g env1 s r1).2.1 r2).1.StatusCode = 200
    ∧ (weatherHandler g env2 (weatherHandler g env1 s r1).2.1 r2).1.Body = b
    ∧ (weatherHandler g env2 (weatherHandler g env1 s r1).2.1 r2).2.2 = [.redisGet k]
    ∧ (weatherHandler g env2 (weatherHandler g env1 s r1).2.1 r2).2.2.filter Event.isHttpGet
        = [] := by
  obtain ⟨e, he⟩ := hmiss
  have hk1 : Values.Get r1.Query "city" ≠ "" := by rw [hq1]; exact hk
  have hk2 : Values.Get r2.Query "city" ≠ "" := by rw [hq2]; exact hk
  have h1 : weatherHandler g env1 s r1 =
      ((ResponseWriter.new.HeaderSet "Content-Type" "application/json").Write b,
        (c.Set s k b g.cacheExpiration).2,
        [.redisGet k, .httpGet (apiURL g.weatherAPIKey k), .redisSet k b g.cacheExpiration]) := by
    rw [handler_valid g env1 s r1 hm1 hk1, hq1]
    simp only [hc, he]
    rw [miss_fetch_ok g env1 s k b rec _ _ hfetch hmar]
    simp [hc]
  have h2 : weatherHandler g env2 (c.Set s k b g.cacheExpiration).2 r2 =
      ((ResponseWriter.new.HeaderSet "Content-Type" "application/json").Write b,
        (c.Set s k b g.cacheExpiration).2, [.redisGet k]) := by
    rw [handler_valid g env2 _ r2 hm2 hk2, hq2]
    simp only [hc, hstored]
  have hw := fresh_json_write b
  rw [h1]
  simp only [h2]
  simp [hw.1, hw.2.1, Event.isHttpGet]

/-- Witness of C1 on the map-backed store: the second request is served from
the cache although its upstream answers 503. -/
theorem cache_hit_returns_stored_bytes_witness :
    (weatherHandler cachedGlobals parisEnv [] parisRequest).1.Body = parisBytes
    ∧ (weatherHandler cachedGlobals failingEnv
        (weatherHandler cachedGlobals parisEnv [] parisRequest).2.1 parisRequest).1.Body
        = parisBytes
    ∧ (weatherHandler cachedGlobals failingEnv
        (weatherHandler cachedGlobals parisEnv [] parisRequest).2.1 parisRequest).2.2
        = [.redisGet "Paris"] :=
  have h := cache_hit_returns_stored_bytes cachedGlobals mapClient parisEnv failingEnv []
    parisRequest parisRequest "Paris" parisBytes (parisRecord "2024-05-01T12:00:00Z")
    rfl rfl rfl rfl rfl (by decide) ⟨_, rfl⟩ rfl rfl rfl
  ⟨h.2.1, h.2.2.2.2.2.1, h.2.2.2.2.2.2.1⟩

/-- C3: when a valid GET request misses the enabled cache and the upstream
fetch fails (transport failure, status other than 200, or a body that does
not decode), the response has status 500, the only calls are the cache read
and the upstream request (no cache write), the store is left as it was, and
a following GET request for the same key misses again and makes its own
upstream request. -/
theorem upstream_failure_not_cached {σ : Type} (g : Globals σ) (c : RedisClient σ)
    (env env2 : Env) (s : σ) (r r2 : Request) (k : String)
    (hc : g.redisClient = some c)
    (hm : r.Method = "GET") (hq : Values.Get r.Query "city" = k)
    (hm2 : r2.Method = "GET") (hq2 : Values.Get r2.Query "city" = k)
    (hk : k ≠ "")
    (hmiss : ∃ e, c.Get s k = .error e)
    (hfail : (∃ err, env.httpGet (apiURL g.weatherAPIKey k) = .error err)
      ∨ (∃ code body, env.httpGet (apiURL g.weatherAPIKey k) = .response code body ∧ code ≠ 200)
      ∨ (∃ body err, env.httpGet (apiURL g.weatherAPIKey k) = .response 200 body
          ∧ env.Decode body = .error err)) :
    (weatherHandler g env s r).1.StatusCode = 500
    ∧ (weatherHandler g env s r).2.2 = [.redisGet k, .httpGet (apiURL g.weatherAPIKey k)]
    ∧ (weatherHandler g env s r).2.2.filter Event.isRedisSet = []
    ∧ (weatherHandler g env s r).2.1 = s
    ∧ (∃ e, c.Get (weatherHandler g env s r).2.1 k = .error e)
    ∧ (weatherHandler g env2 (weatherHandler g env s r).2.1 r2).2.2.filter Event.isHttpGet
        = [.httpGet (apiURL g.weatherAPIKey k)] := by
  have hf : ∃ e, (fetchWeatherFromAPI g.weatherAPIKey env k).1 = .error e := by
    rcases hfail with ⟨err, h⟩ | ⟨code, body, h, hne⟩ | ⟨body, err, h, hd⟩
    · exact ⟨"failed to fetch weather data: " ++ err, by simp [fetchWeatherFromAPI, h]⟩
    · exact ⟨"API returned status " ++ toString code ++ ": " ++ body,
        by simp [fetchWeatherFromAPI, h, hne]⟩
    · exact ⟨"failed to decode API response: " ++ err,
        by simp [fetchWeatherFromAPI, h, hd]⟩
  obtain ⟨e1, hf⟩ := hf
  obtain ⟨e, he⟩ := hmiss
  have hk1 : Values.Get r.Query "city" ≠ "" := by rw [hq]; exact hk
  have h1 : weatherHandler g env s r =
      (Error (ResponseWriter.new.HeaderSet "Content-Type" "application/json")
          ("Error fetching weather data: " ++ e1) 500, s,
        [.redisGet k, .httpGet (apiURL g.weatherAPIKey k)]) := by
    rw [handler_valid g env s r hm hk1, hq]
    simp only [hc, he]
    rw [miss_fetch_error g env s k e1 _ _ hf]
    rfl
  have h2 := valid_miss_trace g c env2 s r2 k hc hm2 hq2 hk ⟨e, he⟩
  rw [h1]
  refine ⟨error_status _ _ _ rfl, rfl, by simp [Event.isRedisSet], rfl, ⟨e, he⟩, ?_⟩
  rcases h2 with h | ⟨b, h⟩ <;> simp [h, Event.isHttpGet]

/-- Witness of C3: the provider answers 503. -/
theorem upstream_failure_not_cached_witness :
    (weatherHandler cachedGlobals failingEnv [] parisRequest).1.StatusCode = 500
    ∧ (weatherHandler cachedGlobals failingEnv [] parisRequest).2.1 = []
    ∧ (weatherHandler cachedGlobals parisEnv
        (weatherHandler cachedGlobals failingEnv [] parisRequest).2.1 parisRequest).2.2.filter
          Event.isHttpGet = [.httpGet (apiURL "KEY" "Paris")] :=
  have h := upstream_failure_not_cached cachedGlobals mapClient failingEnv parisEnv []
    parisRequest parisRequest "Paris" rfl rfl rfl rfl rfl (by decide) ⟨_, rfl⟩
    (Or.inr (Or.inl ⟨503, "unavailable", rfl, by decide⟩))
  ⟨h.1, h.2.2.2.1, h.2.2.2.2.2⟩

/-- C4: cache trouble never fails a request. For a valid GET request whose
upstream fetch yields a record that serialises to `b`: without a cache client
the response is 200 with body `b`, the only call is the upstream request and
the store is untouched; with a client whose `Get` fails and whose `Set`
fails, the response is still 200 with body `b`; and a failed startup ping
is what leaves the service without a client. -/
theorem cache_trouble_never_fails {σ : Type} (g : Globals σ) (env : Env) (s : σ)
    (r : Request) (k b : String) (rec : WeatherResponse)
    (hm : r.Method = "GET") (hq : Values.Get r.Query "city" = k) (hk : k ≠ "")
    (hfetch : (fetchWeatherFromAPI g.weatherAPIKey env k).1 = .ok rec)
    (hmar : env.Marshal rec = .ok b) :
    (g.redisClient = none →
        (weatherHandler g env s r).1.StatusCode = 200
        ∧ (weatherHandler g env s r).1.Body = b
        ∧ (weatherHandler g env s r).2.2 = [.httpGet (apiURL g.weatherAPIKey k)]
        ∧ (weatherHandler g env s r).2.1 = s)
    ∧ (∀ c, g.redisClient = some c → (∃ e, c.Get s k = .error e) →
        (∃ e, (c.Set s k b g.cacheExpiration).1 = .error e) →
        (weatherHandler g env s r).1.StatusCode = 200
        ∧ (weatherHandler g env s r).1.Body = b
        ∧ (weatherHandler g env s r).2.2.filter Event.isHttpGet
            = [.httpGet (apiURL g.weatherAPIKey k)])
    ∧ (∀ (client : RedisClient σ) (s0 : σ) (exp : Int),
        (∃ e, client.Ping s0 = .error e) →
        init g.weatherAPIKey exp client s0 = some g → g.redisClient = none) := by
  have hk1 : Values.Get r.Query "city" ≠ "" := by rw [hq]; exact hk
  have hw := fresh_json_write b
  refine ⟨?_, ?_, ?_⟩
  · intro hnone
    have h1 : weatherHandler g env s r =
        ((ResponseWriter.new.HeaderSet "Content-Type" "application/json").Write b, s,
          [.httpGet (apiURL g.weatherAPIKey k)]) := by
      rw [handler_valid g env s r hm hk1, hq]
      simp only [hnone]
      rw [miss_fetch_ok g env s k b rec _ _ hfetch hmar]
      simp [hnone]
    rw [h1]
    exact ⟨hw.1, hw.2.1, rfl, rfl⟩
  · intro c hc hget _
    obtain ⟨e, he⟩ := hget
    have h1 : weatherHandler g env s r =
        ((ResponseWriter.new.HeaderSet "Content-Type" "application/json").Write b,
          (c.Set s k b g.cacheExpiration).2,
          [.redisGet k, .httpGet (apiURL g.weatherAPIKey k),
            .redisSet k b g.cacheExpiration]) := by
      rw [handler_valid g env s r hm hk1, hq]
      simp only [hc, he]
      rw [miss_fetch_ok g env s k b rec _ _ hfetch hmar]
      simp [hc]
    rw [h1]
    exact ⟨hw.1, hw.2.1, by simp [Event.isHttpGet]⟩
  · intro client s0 exp hping hinit
    obtain ⟨e, he⟩ := hping
    unfold init at hinit
    split at hinit
    · exact absurd hinit (by simp)
    · simp only [he, Option.some.injEq] at hinit
      rw [← hinit]

/-- Witness of C4: once without a client, once with a client that cannot
reach its server. -/
theorem cache_trouble_never_fails_witness :
    ((weatherHandler uncachedGlobals parisEnv [] parisRequest).1.StatusCode = 200
      ∧ (weatherHandler uncachedGlobals parisEnv [] parisRequest).1.Body = parisBytes
      ∧ (weatherHandler uncachedGlobals parisEnv [] parisRequest).2.2
          = [.httpGet (apiURL "KEY" "Paris")]
      ∧ (weatherHandler uncachedGlobals parisEnv [] parisRequest).2.1 = [])
    ∧ ((weatherHandler brokenGlobals parisEnv [] parisRequest).1.StatusCode = 200
      ∧ (weatherHandler brokenGlobals parisEnv [] parisRequest).1.Body = parisBytes
      ∧ (weatherHandler brokenGlobals parisEnv [] parisRequest).2.2.filter Event.isHttpGet
          = [.httpGet (apiURL "KEY" "Paris")])
    ∧ init "KEY" 43200000000000 downClient [] = some uncachedGlobals :=
  ⟨(cache_trouble_never_fails uncachedGlobals parisEnv [] parisRequest "Paris" parisBytes
      (parisRecord "2024-05-01T12:00:00Z") rfl rfl (by decide) rfl rfl).1 rfl,
   (cache_trouble_never_fails brokenGlobals parisEnv [] parisRequest "Paris" parisBytes
      (parisRecord "2024-05-01T12:00:00Z") rfl rfl (by decide) rfl rfl).2.1 downClient rfl
      ⟨_, rfl⟩ ⟨_, rfl⟩,
   rfl⟩

/-- C5 as stated fails: a POST request without any parameter is answered
405, not 400; and a GET request that carries `city=Paris` and no `location`
parameter is answered 200 after an upstream request, while a GET request
that carries `location=Paris` is answered 400. -/
theorem missing_location_not_400 :
    Values.Get ([] : List (String × String)) "location" = ""
    ∧ (weatherHandler uncachedGlobals parisEnv []
        { Method := "POST", Query := [] }).1.StatusCode = 405
    ∧ Values.Get parisRequest.Query "location" = ""
    ∧ (weatherHandler uncachedGlobals parisEnv [] parisRequest).1.StatusCode = 200
    ∧ (weatherHandler uncachedGlobals parisEnv [] parisRequest).2.2 = [.httpGet parisURL]
    ∧ Values.Get locationRequest.Query "location" = "Paris"
    ∧ (weatherHandler uncachedGlobals parisEnv [] locationRequest).1.StatusCode = 400 := by
  refine ⟨rfl, rfl, rfl, rfl, ?_, rfl, rfl⟩
  decide

/-- C5, amended: every GET request whose `city` query parameter is missing
or empty is answered 400 with the text "City parameter is required", and
neither the cache store nor the upstream is called; the store is as it
was. -/
theorem missing_city_is_400 {σ : Type} (g : Globals σ) (env : Env) (s : σ) (r : Request)
    (hm : r.Method = "GET")
    (hcity : (∀ kv ∈ r.Query, kv.1 ≠ "city") ∨ Values.Get r.Query "city" = "") :
    (weatherHandler g env s r).1.StatusCode = 400
    ∧ (weatherHandler g env s r).1.Body = "City parameter is required\n"
    ∧ (weatherHandler g env s r).2.2 = []
    ∧ (weatherHandler g env s r).2.1 = s := by
  have hget : Values.Get r.Query "city" = "" := by
    rcases hcity with h | h
    · unfold Values.Get
      have : r.Query.find? (fun kv => kv.1 == "city") = none := by
        rw [List.find?_eq_none]
        intro kv hkv
        simpa using h kv hkv
      rw [this]
    · exact h
  have h1 : weatherHandler g env s r =
      (Error ResponseWriter.new "City parameter is required" 400, s, []) := by
    simp [weatherHandler, hm, hget]
  rw [h1]
  refine ⟨error_status _ _ _ rfl, ?_, rfl, rfl⟩
  simp [Error, ResponseWriter.Write, ResponseWriter.WriteHeader, ResponseWriter.HeaderSet,
    ResponseWriter.new]

/-- Witness of C5 amended: `GET /weather?location=Paris` has no `city`. -/
theorem missing_city_is_400_witness :
    (weatherHandler cachedGlobals parisEnv [("Paris", "cached")] locationRequest).1.StatusCode
        = 400
    ∧ (weatherHandler cachedGlobals parisEnv [("Paris", "cached")] locationRequest).2.2 = [] :=
  have h := missing_city_is_400 cachedGlobals parisEnv [("Paris", "cached")] locationRequest
    rfl (Or.inl (by decide))
  ⟨h.1, h.2.2.1⟩

/-- C6: every request whose method is not GET is answered 405, whatever its
query, before anything else runs: no cache read, no upstream request, no
cache write, and the store is as it was. -/
theorem non_get_is_405 {σ : Type} (g : Globals σ) (env : Env) (s : σ) (r : Request)
    (hm : r.Method ≠ "GET") :
    (weatherHandler g env s r).1.StatusCode = 405
    ∧ (weatherHandler g env s r).2.2 = []
    ∧ (weatherHandler g env s r).2.1 = s := by
  have h1 : weatherHandler g env s r =
      (Error ResponseWriter.new "Method not allowed" 405, s, []) := by
    simp [weatherHandler, hm]
  rw [h1]
  exact ⟨error_status _ _ _ rfl, rfl, rfl⟩

/-- Witness of C6: `POST /weather?city=Paris` with the value cached. -/
theorem non_get_is_405_witness :
    (weatherHandler cachedGlobals parisEnv [("Paris", "cached")]
        { Method := "POST", Query := [("city", "Paris")] }).1.StatusCode = 405
    ∧ (weatherHandler cachedGlobals parisEnv [("Paris", "cached")]
        { Method := "POST", Query := [("city", "Paris")] }).2.2 = [] :=
  have h := non_get_is_405 cachedGlobals parisEnv [("Paris", "cached")]
    { Method := "POST", Query := [("city", "Paris")] } (by decide)
  ⟨h.1, h.2.1⟩

/-- C7 as stated fails: the handler reads the query parameter `city`, so
`GET /weather?location=Paris` is answered 400 with "City parameter is
required" and no upstream request is made, although the upstream would have
answered with the Paris payload. -/
theorem location_paris_is_rejected :
    (weatherHandler uncachedGlobals parisEnv [] locationRequest).1.StatusCode = 400
    ∧ (weatherHandler uncachedGlobals parisEnv [] locationRequest).1.Body
        = "City parameter is required\n"
    ∧ (weatherHandler uncachedGlobals parisEnv [] locationRequest).2.2 = []
    ∧ (weatherHandler cachedGlobals parisEnv [] locationRequest).1.StatusCode = 400 := by
  refine ⟨rfl, ?_, rfl, rfl⟩
  decide

/-- C7, amended to the request `GET /weather?city=Paris`: with the cache
disabled or without an entry for `Paris`, and an upstream that answers 200
with a body decoding to resolved address "Paris, France" and current
conditions temp 18.5, "Clear", humidity 60, windspeed 10, the response is
200, JSON-typed, and its body is the JSON object with `location` "Paris,
France", `temperature` 18.5, `conditions` "Clear", `humidity` 60, `windSpeed`
10 and `timestamp` the clock reading of the fetch, under the keys of the
`json` tags; `json.Marshal` is `jsonMarshal` over a `float64` encoder that
writes the three numbers as Go does. In general the fetched record copies the
five provider fields unchanged, its location is the resolved address and its
timestamp the clock reading. -/
theorem paris_scenario {σ : Type} (g : Globals σ) (env : Env) (s : σ) (r : Request)
    (body : String) (formatFloat : float64 → Except String String)
    (hm : r.Method = "GET") (hq : Values.Get r.Query "city" = "Paris")
    (hcache : ∀ c, g.redisClient = some c → ∃ e, c.Get s "Paris" = .error e)
    (hget : env.httpGet (apiURL g.weatherAPIKey "Paris") = .response 200 body)
    (hdec : env.Decode body =
      .ok { ResolvedAddress := "Paris, France"
            CurrentConditions :=
              { Temp := float18_5, Conditions := "Clear", Humidity := float60,
                WindSpeed := float10 } })
    (hmarshal : env.Marshal = jsonMarshal formatFloat)
    (h185 : formatFloat float18_5 = .ok "18.5")
    (h60 : formatFloat float60 = .ok "60")
    (h10 : formatFloat float10 = .ok "10") :
    (float18_5.denotes 185 10 = true ∧ float60.denotes 60 1 = true
      ∧ float10.denotes 10 1 = true)
    ∧ (fetchWeatherFromAPI g.weatherAPIKey env "Paris").1 =
        .ok { Location := "Paris, France", Temperature := float18_5, Conditions := "Clear",
              Humidity := float60, WindSpeed := float10, Timestamp := env.now }
    ∧ (weatherHandler g env s r).1.StatusCode = 200
    ∧ (weatherHandler g env s r).1.HeaderGet "Content-Type" = "application/json"
    ∧ (weatherHandler g env s r).1.Body =
        "\x7b\"location\":\"Paris, France\",\"temperature\":18.5,\"conditions\":\"Clear\",\"humidity\":60,\"windSpeed\":10,\"timestamp\":"
          ++ quote env.now ++ "\x7d"
    ∧ ((∀ c ∈ env.now.data, quoteChar c = [c]) →
        (weatherHandler g env s r).1.Body =
          "\x7b\"location\":\"Paris, France\",\"temperature\":18.5,\"conditions\":\"Clear\",\"humidity\":60,\"windSpeed\":10,\"timestamp\":\""
            ++ env.now ++ "\"\x7d")
    ∧ (∀ (key city : String) (env0 : Env) (body0 : String) (vc : VisualCrossingResponse),
        env0.httpGet (apiURL key city) = .response 200 body0 → env0.Decode body0 = .ok vc →
        (fetchWeatherFromAPI key env0 city).1 =
          .ok { Location := vc.ResolvedAddress
                Temperature := vc.CurrentConditions.Temp
                Conditions := vc.CurrentConditions.Conditions
                Humidity := vc.CurrentConditions.Humidity
                WindSpeed := vc.CurrentConditions.WindSpeed
                Timestamp := env0.now }) := by
  have hf := fetch_ok g.weatherAPIKey env "Paris" body _ hget hdec
  have hk1 : Values.Get r.Query "city" ≠ "" := by rw [hq]; decide
  have hmar := paris_marshal formatFloat env.now h185 h60 h10
  rw [← hmarshal] at hmar
  have hw := fresh_json_write
    ("\x7b\"location\":\"Paris, France\",\"temperature\":18.5,\"conditions\":\"Clear\",\"humidity\":60,\"windSpeed\":10,\"timestamp\":"
      ++ quote env.now ++ "\x7d")
  have h1 : (weatherHandler g env s r).1 =
      (ResponseWriter.new.HeaderSet "Content-Type" "application/json").Write
        ("\x7b\"location\":\"Paris, France\",\"temperature\":18.5,\"conditions\":\"Clear\",\"humidity\":60,\"windSpeed\":10,\"timestamp\":"
          ++ quote env.now ++ "\x7d") := by
    rw [handler_valid g env s r hm hk1, hq]
    cases hc : g.redisClient with
    | none =>
      simp only []
      rw [miss_fetch_ok g env s "Paris" _ _ _ _ hf hmar]
      simp [hc]
    | some c =>
      obtain ⟨e, he⟩ := hcache c hc
      simp only [he]
      rw [miss_fetch_ok g env s "Paris" _ _ _ _ hf hmar]
      simp [hc]
  rw [h1]
  refine ⟨⟨by decide, by decide, by decide⟩, hf, hw.1, hw.2.2, hw.2.1, ?_,
    fun key city env0 body0 vc h0 h1 => fetch_ok key env0 city body0 vc h0 h1⟩
  intro hplain
  rw [hw.2.1, quote_plain env.now hplain]
  apply String.ext
  simp only [String.data_append, List.append_assoc]
  rfl

/-- Witness of C7 amended, on the empty map-backed cache with `json.Marshal`
as the serialiser. -/
theorem paris_scenario_witness :
    (fetchWeatherFromAPI "KEY" jsonEnv "Paris").1 =
        .ok { Location := "Paris, France", Temperature := float18_5, Conditions := "Clear",
              Humidity := float60, WindSpeed := float10, Timestamp := "2024-05-01T12:00:00Z" }
    ∧ (weatherHandler cachedGlobals jsonEnv [] parisRequest).1.StatusCode = 200
    ∧ (weatherHandler cachedGlobals jsonEnv [] parisRequest).1.Body = parisJSON :=
  have h := paris_scenario cachedGlobals jsonEnv [] parisRequest "paris-payload" scenarioFormat
    rfl rfl (fun c hc => by
      have : c = mapClient := (Option.some.inj hc).symm
      subst this
      exact ⟨_, rfl⟩) rfl rfl rfl rfl rfl rfl
  ⟨h.2.1, h.2.2.1, h.2.2.2.2.2.1 (by decide)⟩

/-- C8 as stated fails on the exact bytes: the body written by
`json.NewEncoder(w).Encode` ends with a newline, so it is not the bare text
`{"status":"ok"}`. -/
theorem health_body_has_newline :
    (healthHandler uncachedGlobals parisEnv [] { Method := "GET", Query := [] }).1.Body
      ≠ "\x7b\"status\":\"ok\"\x7d" := by
  decide

/-- C8, amended: every request to `/health`, in every state of the cache
store and of the upstream and whatever the method and query, is answered 200
with content type JSON and the fixed body `{"status":"ok"}` followed by one
newline; the handler calls neither the cache store nor the upstream and
leaves the store as it was. -/
theorem health_fixed_payload {σ : Type} (g : Globals σ) (env : Env) (s : σ) (r : Request) :
    (healthHandler g env s r).1.StatusCode = 200
    ∧ (healthHandler g env s r).1.Body = "\x7b\"status\":\"ok\"\x7d" ++ "\n"
    ∧ (healthHandler g env s r).1.HeaderGet "Content-Type" = "application/json"
    ∧ (healthHandler g env s r).2.2 = []
    ∧ (healthHandler g env s r).2.1 = s := by
  have hw := fresh_json_write "\x7b\"status\":\"ok\"\x7d\n"
  refine ⟨hw.1, ?_, hw.2.2, rfl, rfl⟩
  exact hw.2.1.trans (by decide)

/-- C9 fails on the code at the city `New York`: the client escapes the name
with `url.QueryEscape`, so the URL carries the space as `+`; path-unescaping
the segment `New+York` gives the bytes of `New+York`, not of `New York`,
whereas the path-segment escaping `New%20York` would give the name back. -/
theorem apiURL_space_becomes_plus :
    apiURL "KEY" "New York" =
      "https://weather.visualcrossing.com/VisualCrossingWebServices/rest/services/timeline/New+York?key=KEY&unitGroup=metric&include=current"
    ∧ PathEscape "New York" = "New%20York"
    ∧ PathUnescape (QueryEscape "New York").data = some (bytesOf "New+York")
    ∧ PathUnescape (QueryEscape "New York").data ≠ some (bytesOf "New York")
    ∧ PathUnescape (PathEscape "New York").data = some (bytesOf "New York") := by
  refine ⟨by decide, by decide, by decide, by decide, by decide⟩

end WeatherAPI

namespace TaskTracker

/-! ## Helper lemmas on the task list -/

theorem foldl_max_ge (tasks : List Task) (m : Int) :
    m ≤ tasks.foldl (fun maxID task => if task.ID > maxID then task.ID else maxID) m
    ∧ ∀ t ∈ tasks,
        t.ID ≤ tasks.foldl (fun maxID task => if task.ID > maxID then task.ID else maxID) m := by
  induction tasks generalizing m with
  | nil => simp
  | cons a rest ih =>
    simp only [List.foldl_cons, List.mem_cons, forall_eq_or_imp]
    have h := ih (if a.ID > m then a.ID else m)
    refine ⟨?_, ?_, h.2⟩
    · have h1 := h.1
      split at h1 <;> omega
    · have h1 := h.1
      split at h1 <;> omega

theorem foldl_max_le (tasks : List Task) (m B : Int) (hm : m ≤ B)
    (h : ∀ t ∈ tasks, t.ID ≤ B) :
    tasks.foldl (fun maxID task => if task.ID > maxID then task.ID else maxID) m ≤ B := by
  induction tasks generalizing m with
  | nil => simpa using hm
  | cons a rest ih =>
    simp only [List.foldl_cons]
    apply ih
    · have := h a (List.mem_cons_self _ _)
      split <;> omega
    · intro t ht
      exact h t (List.mem_cons_of_mem _ ht)

theorem wrapInt_id (x : Int) (h0 : 0 ≤ x) (h1 : x ≤ maxInt) : wrapInt x = x := by
  unfold wrapInt
  unfold maxInt at h1
  omega

theorem getNextID_eq (tasks : List Task) (hbound : ∀ t ∈ tasks, t.ID < maxInt) :
    getNextID tasks =
      tasks.foldl (fun maxID task => if task.ID > maxID then task.ID else maxID) 0 + 1 := by
  unfold getNextID
  have h0 := (foldl_max_ge tasks 0).1
  have h1 := foldl_max_le tasks 0 (maxInt - 1) (by unfold maxInt; omega)
    (fun t ht => by have := hbound t ht; omega)
  exact wrapInt_id _ (by omega) (by omega)

theorem updateLoop_eq_map (id : Int) (description : String) (now : Nat) (tasks : List Task)
    (hnodup : (ids tasks).Nodup) :
    (updateLoop id description now tasks).2 =
      tasks.map (fun t =>
        if t.ID = id then { t with Description := description, UpdatedAt := now } else t) := by
  induction tasks with
  | nil => rfl
  | cons a rest ih =>
    simp only [ids, List.map_cons, List.nodup_cons, List.mem_map, not_exists, not_and] at hnodup
    unfold updateLoop
    by_cases ha : a.ID = id
    · have hrest : rest.map (fun t =>
          if t.ID = id then { t with Description := description, UpdatedAt := now } else t) = rest := by
        calc rest.map (fun t =>
                if t.ID = id then { t with Description := description, UpdatedAt := now } else t)
            = rest.map (fun t => t) := by
              apply List.map_congr_left
              intro t ht
              have : t.ID ≠ id := fun h => hnodup.1 t ht (h.trans ha.symm)
              simp [this]
          _ = rest := by simp
      rw [List.map_cons, hrest]
      simp [ha]
    · simp only [ha, if_false, List.map_cons]
      rw [ih hnodup.2]

theorem markLoop_eq_map (id : Int) (status : String) (now : Nat) (tasks : List Task)
    (hnodup : (ids tasks).Nodup) :
    (markLoop id status now tasks).2 =
      tasks.map (fun t =>
        if t.ID = id then { t with Status := status, UpdatedAt := now } else t) := by
  induction tasks with
  | nil => rfl
  | cons a rest ih =>
    simp only [ids, List.map_cons, List.nodup_cons, List.mem_map, not_exists, not_and] at hnodup
    unfold markLoop
    by_cases ha : a.ID = id
    · have hrest : rest.map (fun t =>
          if t.ID = id then { t with Status := status, UpdatedAt := now } else t) = rest := by
        calc rest.map (fun t =>
                if t.ID = id then { t with Status := status, UpdatedAt := now } else t)
            = rest.map (fun t => t) := by
              apply List.map_congr_left
              intro t ht
              have : t.ID ≠ id := fun h => hnodup.1 t ht (h.trans ha.symm)
              simp [this]
          _ = rest := by simp
      rw [List.map_cons, hrest]
      simp [ha]
    · simp only [ha, if_false, List.map_cons]
      rw [ih hnodup.2]

theorem updateLoop_found (id : Int) (description : String) (now : Nat) (tasks : List Task) :
    (updateLoop id description now tasks).1 = true ↔ ∃ t ∈ tasks, t.ID = id := by
  induction tasks with
  | nil => simp [updateLoop]
  | cons a rest ih =>
    unfold updateLoop
    by_cases ha : a.ID = id
    · simp [ha]
    · simp [ha, ih]

theorem markLoop_found (id : Int) (status : String) (now : Nat) (tasks : List Task) :
    (markLoop id status now tasks).1 = true ↔ ∃ t ∈ tasks, t.ID = id := by
  induction tasks with
  | nil => simp [markLoop]
  | cons a rest ih =>
    unfold markLoop
    by_cases ha : a.ID = id
    · simp [ha]
    · simp [ha, ih]

theorem deleteLoop_found (id : Int) (tasks : List Task) :
    (deleteLoop id tasks).1 = true ↔ ∃ t ∈ tasks, t.ID = id := by
  induction tasks with
  | nil => simp [deleteLoop]
  | cons a rest ih =>
    unfold deleteLoop
    by_cases ha : a.ID = id
    · simp [ha]
    · simp [ha, ih]

theorem deleteLoop_eq_filter (id : Int) (tasks : List Task) :
    (deleteLoop id tasks).2 = tasks.filter (fun t => decide (t.ID ≠ id)) := by
  induction tasks with
  | nil => rfl
  | cons a rest ih =>
    unfold deleteLoop
    by_cases ha : a.ID = id
    · simp [ha, ih]
    · simp [ha, ih]

theorem ids_map_same (f : Task → Task) (hf : ∀ t, (f t).ID = t.ID) (tasks : List Task) :
    ids (tasks.map f) = ids tasks := by
  simp [ids, List.map_map, Function.comp_def, hf]

/-! ## The claim on task IDs -/

/-- C10 as stated fails at the largest `int`: for the one-task list with ID
9223372036854775807 the sum `maxID + 1` wraps, `getNextID` returns
-9223372036854775808, which is neither at least 1 nor above the ID in the
list; and for the list with the two IDs 9223372036854775807 and
-9223372036854775808, pairwise distinct, `addTask` saves a list with a
repeated ID. -/
theorem getNextID_wraps_at_maxInt :
    (ids [taskWithID maxInt]).Nodup
    ∧ getNextID [taskWithID maxInt] = minInt
    ∧ ¬ (1 ≤ getNextID [taskWithID maxInt])
    ∧ ¬ (∀ t ∈ [taskWithID maxInt], t.ID < getNextID [taskWithID maxInt])
    ∧ (ids [taskWithID maxInt, taskWithID minInt]).Nodup
    ∧ ¬ (ids (addTask [taskWithID maxInt, taskWithID minInt] "x" 0 0)).Nodup := by
  refine ⟨by decide, by decide, by decide, by decide, by decide, by decide⟩

/-- C10, amended with the bound that keeps `maxID + 1` inside `int`: for
every task list whose IDs are pairwise distinct and all below the largest
`int`, `getNextID` returns an ID that is at least 1 and strictly greater than
every ID in the list (1 for the empty list), so the list saved by `addTask`
is the old list followed by one task with that ID and has pairwise distinct
IDs; and, with or without the bound, when a task has the given ID the lists
saved by `updateTask` and `markTask` change only that task (same IDs, same
order) and the list saved by `deleteTask` is the old list without it, so
all three have pairwise distinct IDs. -/
theorem task_ids_stay_unique (tasks : List Task) (hnodup : (ids tasks).Nodup) :
    ((∀ t ∈ tasks, t.ID < maxInt) →
        1 ≤ getNextID tasks
        ∧ (∀ t ∈ tasks, t.ID < getNextID tasks)
        ∧ (∀ description now1 now2,
            ids (addTask tasks description now1 now2) = ids tasks ++ [getNextID tasks]
            ∧ (ids (addTask tasks description now1 now2)).Nodup))
    ∧ getNextID [] = 1
    ∧ (∀ id description now, (∃ t ∈ tasks, t.ID = id) →
        ∃ saved, updateTask tasks id description now = .ok saved
          ∧ saved = tasks.map (fun t =>
              if t.ID = id then { t with Description := description, UpdatedAt := now }
              else t)
          ∧ ids saved = ids tasks ∧ (ids saved).Nodup)
    ∧ (∀ id status now, (∃ t ∈ tasks, t.ID = id) →
        ∃ saved, markTask tasks id status now = .ok saved
          ∧ saved = tasks.map (fun t =>
              if t.ID = id then { t with Status := status, UpdatedAt := now } else t)
          ∧ ids saved = ids tasks ∧ (ids saved).Nodup)
    ∧ (∀ id, (∃ t ∈ tasks, t.ID = id) →
        ∃ saved, deleteTask tasks id = .ok saved
          ∧ saved = tasks.filter (fun t => decide (t.ID ≠ id))
          ∧ (ids saved).Nodup) := by
  refine ⟨?_, by decide, ?_, ?_, ?_⟩
  · intro hbound
    have hnext := getNextID_eq tasks hbound
    have hge := foldl_max_ge tasks 0
    have hlt : ∀ t ∈ tasks, t.ID < getNextID tasks := by
      intro t ht
      have := hge.2 t ht
      omega
    refine ⟨by have := hge.1; omega, hlt, ?_⟩
    intro description now1 now2
    have hids : ids (addTask tasks description now1 now2) = ids tasks ++ [getNextID tasks] := by
      simp [addTask, ids]
    refine ⟨hids, ?_⟩
    rw [hids]
    apply List.Nodup.append hnodup (List.nodup_singleton _)
    intro x hx hx1
    rw [List.mem_singleton] at hx1
    subst hx1
    simp only [ids, List.mem_map] at hx
    obtain ⟨t, ht, hte⟩ := hx
    have := hlt t ht
    omega
  · intro id description now hex
    have hfound := (updateLoop_found id description now tasks).2 hex
    have hmap := updateLoop_eq_map id description now tasks hnodup
    have hids : ids (tasks.map (fun t =>
        if t.ID = id then { t with Description := description, UpdatedAt := now } else t))
        = ids tasks := by
      apply ids_map_same
      intro t
      split <;> rfl
    refine ⟨_, ?_, rfl, hids, by rw [hids]; exact hnodup⟩
    simp [updateTask, hfound, hmap]
  · intro id status now hex
    have hfound := (markLoop_found id status now tasks).2 hex
    have hmap := markLoop_eq_map id status now tasks hnodup
    have hids : ids (tasks.map (fun t =>
        if t.ID = id then { t with Status := status, UpdatedAt := now } else t))
        = ids tasks := by
      apply ids_map_same
      intro t
      split <;> rfl
    refine ⟨_, ?_, rfl, hids, by rw [hids]; exact hnodup⟩
    simp [markTask, hfound, hmap]
  · intro id hex
    have hfound := (deleteLoop_found id tasks).2 hex
    have hfil := deleteLoop_eq_filter id tasks
    refine ⟨_, ?_, rfl, ?_⟩
    · simp [deleteTask, hfound, hfil]
    · unfold ids
      exact (hnodup.sublist ((List.filter_sublist _).map _))

/-- Witness of C10 amended on the list with IDs 3 and 1. -/
theorem task_ids_stay_unique_witness :
    1 ≤ getNextID [taskWithID 3, taskWithID 1]
    ∧ ids (addTask [taskWithID 3, taskWithID 1] "write" 5 5) = [3, 1, 4]
    ∧ (ids (addTask [taskWithID 3, taskWithID 1] "write" 5 5)).Nodup
    ∧ (∃ saved, deleteTask [taskWithID 3, taskWithID 1] 3 = .ok saved
        ∧ saved = [taskWithID 1] ∧ (ids saved).Nodup) :=
  have h := task_ids_stay_unique [taskWithID 3, taskWithID 1] (by decide)
  have ha := h.1 (by decide)
  have hd := h.2.2.2.2 3 ⟨taskWithID 3, by decide, rfl⟩
  ⟨ha.1, by decide, (ha.2.2 "write" 5 5).2, by
    obtain ⟨saved, h1, h2, h3⟩ := hd
    exact ⟨saved, h1, h2.trans (by decide), h3⟩⟩

end TaskTracker
